import Mathlib

/-!
Verification of the news-aggregator backend: a shallow embedding of
`backend/microservices/news_storage.py` (article dedup/persist),
`backend/microservices/news_fetcher.py` (provider fetch), the
`/api/news/fetch` route, and the story-tracking endpoints of
`backend/api_gateway/api_gateway.py`.  The story-tracking service module
itself (`backend/microservices/story_tracking_service.py`) is not part of
the sources; where a property depends on it, the service operation is
modelled from the specification and marked as such in its doc comment.
Python dicts with optional keys are modelled with `Option` fields; a
`KeyError` raised by a missing required key is an explicit error value.
-/

namespace NewsAggregator

/-- Value of the `source` field of a fetched article: the provider sends
either a dict (whose `"name"` entry may be absent) or a plain value,
modelled as a string. -/
inductive SourceVal where
  | dict (name : Option String)
  | str (s : String)
deriving DecidableEq

/-- A raw fetched article, as the Python dict handed to
`store_article_in_supabase`; `none` models an absent key. -/
structure RawArticle where
  title : Option String := none
  summary : Option String := none
  content : Option String := none
  source : Option SourceVal := none
  publishedAt : Option String := none
  url : Option String := none
  urlToImage : Option String := none
deriving DecidableEq

/-- A row of the `news_articles` table, with the columns written by
`store_article_in_supabase`. -/
structure ArticleRow where
  id : Nat
  title : String
  summary : String
  content : String
  source : String
  published_at : String
  url : String
  image : String
deriving DecidableEq

/-- The `news_articles` table: its rows plus the next id the store will
assign to an inserted row. -/
structure Store where
  rows : List ArticleRow
  nextId : Nat
deriving DecidableEq

/-- A Python `KeyError` raised by `article["k"]` when the key is absent. -/
inductive StoreError where
  | keyError (key : String)
deriving DecidableEq

/-- The `source` expression of the insert in `store_article_in_supabase`:
`article["source"]["name"] if isinstance(article.get("source"), dict) else
article["source"]`.  A dict source yields its `"name"` entry (`KeyError` when
that entry is absent); a non-dict source value is used as is; when the
`source` key itself is absent, `article.get("source")` is not a dict and the
else branch `article["source"]` raises `KeyError`. -/
def sourceField : Option SourceVal → Except StoreError String
  | some (.dict (some n)) => .ok n
  | some (.dict none) => .error (.keyError "name")
  | some (.str v) => .ok v
  | none => .error (.keyError "source")

/-- `store_article_in_supabase(article)` from
`backend/microservices/news_storage.py`: select the rows whose `url` equals
`article["url"]`; when one exists, return its `id` and touch nothing;
otherwise insert the mapped fields (`summary`, `content` and `image` default
to `""` via `.get`; `title`, `source` and `publishedAt` are accessed with
`[]` and raise `KeyError` when absent) and return the new row's id. -/
def store_article_in_supabase (article : RawArticle) (s : Store) :
    Except StoreError (Nat × Store) :=
  match article.url with
  | none => .error (.keyError "url")
  | some url =>
    match s.rows.find? (fun r => r.url == url) with
    | some r => .ok (r.id, s)
    | none =>
      match article.title with
      | none => .error (.keyError "title")
      | some title =>
        match sourceField article.source with
        | .error e => .error e
        | .ok source =>
          match article.publishedAt with
          | none => .error (.keyError "publishedAt")
          | some published_at =>
            let row : ArticleRow :=
              { id := s.nextId, title := title,
                summary := article.summary.getD "",
                content := article.content.getD "",
                source := source, published_at := published_at,
                url := url, image := article.urlToImage.getD "" }
            .ok (s.nextId, { rows := s.rows ++ [row], nextId := s.nextId + 1 })

/-- Number of rows of the store holding a given url. -/
def urlCount (s : Store) (u : String) : Nat :=
  s.rows.countP (fun r => r.url == u)

/-- Run `store_article_in_supabase` over a list of candidate articles in
order, collecting the returned ids, as the fetch route's loop does. -/
def upsertList : List RawArticle → Store → Except StoreError (List Nat × Store)
  | [], s => .ok ([], s)
  | a :: rest, s =>
    match store_article_in_supabase a s with
    | .error e => .error e
    | .ok (i, s1) =>
      match upsertList rest s1 with
      | .error e => .error e
      | .ok (ids, s2) => .ok (i :: ids, s2)

/-- Outcome of the provider request made by `fetch_news` in
`backend/microservices/news_fetcher.py`: the GET raised (network error or
`raise_for_status` on a non-2xx code), or the provider JSON carried a
status other than `"ok"`, or it answered `"ok"` with a page of articles. -/
inductive FetchOutcome where
  | httpFailure
  | statusNotOk
  | ok (articles : List RawArticle)

/-- `fetch_news(keyword)`: on an `"ok"` provider status the article list is
returned (even when empty); a raised request exception is caught, printed
and the function falls through, and a non-`"ok"` status only prints — both
of these paths return Python `None`, modelled as `none`. -/
def fetch_news : FetchOutcome → Option (List RawArticle)
  | .httpFailure => none
  | .statusNotOk => none
  | .ok articles => some articles

/-- The body produced by the `/api/news/fetch` route: HTTP status code,
whether the JSON payload carried `'status': 'success'`, and the stored ids
it reported. -/
structure FetchResponse where
  status : Nat
  success : Bool
  data : List Nat
deriving DecidableEq

/-- The route's storing loop `for article in articles: ...` with the partial
store kept when an iteration raises, since earlier inserts already
happened. -/
def storeLoop : List RawArticle → Store → Except StoreError (List Nat) × Store
  | [], s => (.ok [], s)
  | a :: rest, s =>
    match store_article_in_supabase a s with
    | .error e => (.error e, s)
    | .ok (i, s1) =>
      match storeLoop rest s1 with
      | (.error e, s2) => (.error e, s2)
      | (.ok ids, s2) => (.ok (i :: ids), s2)

/-- `NewsFetch.get` of `routes/news.py` (the handler in `api_gateway.py` is
the same logic): call `fetch_news`, then `for article in articles` storing
each one, answering 200 with the collected ids.  When `fetch_news` returned
`None`, the iteration raises `TypeError`, and that exception — like a
`KeyError` from the storing loop — is caught by the handler's `except`,
which answers 500 with an error payload. -/
def newsFetchGet (o : FetchOutcome) (s : Store) : FetchResponse × Store :=
  match fetch_news o with
  | none => ({ status := 500, success := false, data := [] }, s)
  | some articles =>
    match storeLoop articles s with
    | (.ok ids, s2) => ({ status := 200, success := true, data := ids }, s2)
    | (.error _, s2) => ({ status := 500, success := false, data := [] }, s2)

/-- Status of a tracked story: ACTIVE, or DELETED after a soft delete. -/
inductive StoryStatus where
  | ACTIVE
  | DELETED
deriving DecidableEq

/-- A row of the `tracked_stories` table. -/
structure TrackedStory where
  id : Nat
  owner_user_id : String
  keyword : String
  status : StoryStatus
deriving DecidableEq

/-- State owned by the story-tracking service: the `tracked_stories` table,
the `story_article_links` table as (story_id, article_id) pairs, and the
next story id the store will assign. -/
structure TrackingState where
  stories : List TrackedStory
  links : List (Nat × Nat)
  nextStoryId : Nat
deriving DecidableEq

/-- Whether `needle` occurs as a contiguous run inside `hay`. -/
def occursIn (needle : List Char) : List Char → Bool
  | [] => needle.isEmpty
  | c :: rest => needle.isPrefixOf (c :: rest) || occursIn needle rest

/-- ASCII lowercasing of one character. -/
def lowerChar (c : Char) : Char :=
  if 65 ≤ c.toNat ∧ c.toNat ≤ 90 then Char.ofNat (c.toNat + 32) else c

/-- Strip leading and trailing whitespace from a character list. -/
def trimChars (cs : List Char) : List Char :=
  ((cs.dropWhile Char.isWhitespace).reverse.dropWhile
    Char.isWhitespace).reverse

/-- The story keyword as compared by the matcher: whitespace-trimmed and
lowercased. -/
def normKeyword (s : String) : List Char :=
  (trimChars s.data).map lowerChar

/-- An article field as searched by the matcher: its lowercased
characters. -/
def lowerData (s : String) : List Char :=
  s.data.map lowerChar

/-- Modelled from the spec: the Relatedness Matcher `isRelated(story,
article)` of the story-tracking service
(`backend/microservices/story_tracking_service.py`, which is not among the
sources; only its callers are).  Per the spec, an article is related iff
the story's keyword, whitespace-trimmed and lowercased, is non-empty and
occurs as a substring of the lowercased title or of the lowercased
content/summary; an absent title, content or summary field is treated as
the empty string instead of raising. -/
def isRelated (story : TrackedStory) (article : RawArticle) : Bool :=
  let k := normKeyword story.keyword
  !k.isEmpty &&
    (occursIn k (lowerData (article.title.getD "")) ||
     occursIn k (lowerData (article.content.getD "")) ||
     occursIn k (lowerData (article.summary.getD "")))

/-- Modelled from the spec: `linkStoryArticle(storyId, articleId)` of the
story-tracking service (not among the sources).  Linking an already-linked
pair is a silent no-op; otherwise one link row is appended. -/
def linkStoryArticle (storyId articleId : Nat) (ts : TrackingState) :
    TrackingState :=
  if (storyId, articleId) ∈ ts.links then ts
  else { ts with links := ts.links ++ [(storyId, articleId)] }

/-- A story together with its linked article ids, as returned by
`get_story_details`. -/
structure StoryDetails where
  story : TrackedStory
  articleIds : List Nat
deriving DecidableEq

/-- Modelled from the spec: `get_story_details(storyId)` of the
story-tracking service (not among the sources): read-only; `none` when the
story does not exist or is DELETED, otherwise the story with its linked
articles. -/
def get_story_details (ts : TrackingState) (storyId : Nat) :
    Option StoryDetails :=
  match ts.stories.find? (fun st => st.id == storyId) with
  | none => none
  | some st =>
    if st.status == .DELETED then none
    else
      some { story := st,
             articleIds :=
               (ts.links.filter (fun p => p.1 == storyId)).map (fun p => p.2) }

/-- Soft-delete marker used by `delete_tracked_story`: the story whose id
matches gets status DELETED, every other row is untouched. -/
def markDeleted (storyId : Nat) (st : TrackedStory) : TrackedStory :=
  if st.id == storyId then { st with status := .DELETED } else st

/-- Modelled from the spec: `delete_tracked_story(userId, storyId)` of the
story-tracking service (not among the sources): succeeds only when the
story exists, is ACTIVE and is owned by the caller, setting its status to
DELETED and retaining the link rows; otherwise it returns false and changes
nothing. -/
def delete_tracked_story (userId : String) (storyId : Nat)
    (ts : TrackingState) : Bool × TrackingState :=
  match ts.stories.find? (fun st => st.id == storyId) with
  | none => (false, ts)
  | some st =>
    if st.status == .ACTIVE && st.owner_user_id == userId then
      (true, { ts with stories := ts.stories.map (markDeleted storyId) })
    else (false, ts)

/-- Modelled from the spec: `create_tracked_story(userId, keyword,
sourceArticleId)` of the story-tracking service (not among the sources):
creates the story in ACTIVE state and, when a seed article id is given,
links it immediately.  (The initial fetch+dedup+match pass only touches the
article store and adds further links; it never changes the created story's
row and is not needed by the claims settled here.) -/
def create_tracked_story (userId : String) (keyword : String)
    (sourceArticleId : Option Nat) (ts : TrackingState) :
    TrackedStory × TrackingState :=
  let st : TrackedStory :=
    { id := ts.nextStoryId, owner_user_id := userId, keyword := keyword,
      status := .ACTIVE }
  let ts1 : TrackingState :=
    { ts with stories := ts.stories ++ [st], nextStoryId := ts.nextStoryId + 1 }
  match sourceArticleId with
  | none => (st, ts1)
  | some aid => (st, linkStoryArticle st.id aid ts1)

/-- `StoryTrackingDetail.get` of `api_gateway.py`: when `get_story_details`
returns nothing, answer 404 ("Tracked story not found"); otherwise 200 with
the story payload. -/
def storyTrackingDetailGet (ts : TrackingState) (storyId : Nat) :
    Nat × Option StoryDetails :=
  match get_story_details ts storyId with
  | none => (404, none)
  | some d => (200, some d)

/-- `StoryTrackingDetail.delete` of `api_gateway.py`: call
`delete_tracked_story`; a false result is answered with the one uniform 404
message, a true result with 200. -/
def storyTrackingDetailDelete (userId : String) (storyId : Nat)
    (ts : TrackingState) : (Nat × String) × TrackingState :=
  match delete_tracked_story userId storyId ts with
  | (true, ts2) => ((200, "Tracked story deleted successfully"), ts2)
  | (false, ts2) =>
      ((404, "Failed to delete tracked story or story not found"), ts2)

/-- `StoryTracking.post` of `api_gateway.py`: read `keyword` from the JSON
body (an absent key is `none`); `if not keyword` rejects an absent or empty
keyword with a 400 before any creation; otherwise `create_tracked_story`
runs and the endpoint answers 201. -/
def storyTrackingPost (userId : String) (keyword : Option String)
    (sourceArticleId : Option Nat) (ts : TrackingState) :
    Nat × TrackingState :=
  match keyword with
  | none => (400, ts)
  | some k =>
    if k == "" then (400, ts)
    else (201, (create_tracked_story userId k sourceArticleId ts).2)

theorem upsert_found (a : RawArticle) (u : String) (s : Store)
    (r : ArticleRow) (hu : a.url = some u)
    (hr : s.rows.find? (fun row => row.url == u) = some r) :
    store_article_in_supabase a s = .ok (r.id, s) := by
  simp [store_article_in_supabase, hu, hr]

/-- C5: when the candidate's url is already present, the lookup branch of
`store_article_in_supabase` returns the found row's id with the store — in
particular every field of every existing row — left completely unchanged:
no update is performed, so the first write wins on re-fetch. -/
theorem C5_first_write_wins (a : RawArticle) (u : String) (s : Store)
    (r : ArticleRow) (hu : a.url = some u)
    (hr : s.rows.find? (fun row => row.url == u) = some r) :
    store_article_in_supabase a s = .ok (r.id, s) :=
  upsert_found a u s r hu hr

def c5Row : ArticleRow :=
  { id := 7, title := "old title", summary := "old summary",
    content := "old content", source := "old source",
    published_at := "2024-01-01", url := "https://e.x/a", image := "old img" }

def c5Article : RawArticle :=
  { title := some "new title", content := some "new content",
    source := some (.str "new source"), publishedAt := some "2024-06-01",
    url := some "https://e.x/a" }

/-- Witness for C5 at a concrete store: re-fetching an existing url returns
the stored id 7 and leaves the row untouched. -/
theorem C5_first_write_wins_witness :
    store_article_in_supabase c5Article { rows := [c5Row], nextId := 8 } =
      .ok (7, { rows := [c5Row], nextId := 8 }) :=
  C5_first_write_wins c5Article "https://e.x/a" { rows := [c5Row], nextId := 8 }
    c5Row rfl (by decide)

def c3Article : RawArticle :=
  { title := some "t", source := some (.str "s"),
    publishedAt := some "2024-01-01", url := some "" }

def c3Row : ArticleRow :=
  { id := 0, title := "t", summary := "", content := "", source := "s",
    published_at := "2024-01-01", url := "", image := "" }

/-- C3 counterexample: an article whose url is the empty string is not
rejected.  On an empty store, `store_article_in_supabase` succeeds and
inserts a row whose url is `""` — the claimed `InvalidArticle` failure for
an empty url does not exist in the code. -/
theorem C3_counterexample_empty_url_inserted :
    store_article_in_supabase c3Article { rows := [], nextId := 0 } =
    .ok (0, { rows := [c3Row], nextId := 1 }) := rfl

/-- C3 (amended): a candidate whose url key is absent makes
`store_article_in_supabase` fail with a `KeyError` on `"url"` before any
store access, so nothing is stored; an empty-string url, however, is not
rejected — it is treated as an ordinary identity value. -/
theorem C3_missing_url_fails (a : RawArticle) (s : Store)
    (h : a.url = none) :
    store_article_in_supabase a s = .error (.keyError "url") := by
  simp [store_article_in_supabase, h]

/-- Witness for the amended C3: an article without a url errors on the
empty store. -/
theorem C3_missing_url_fails_witness :
    store_article_in_supabase { title := some "t" } { rows := [], nextId := 0 }
      = .error (.keyError "url") :=
  C3_missing_url_fails { title := some "t" } { rows := [], nextId := 0 } rfl

/-- C4: when the provider request fails (raised exception or a non-ok
provider status), `fetch_news` catches/absorbs the failure but returns
Python `None`, not an empty list; the route's `for article in articles`
then raises `TypeError`, and the handler answers 500 with an error payload
and no stored ids — not the claimed empty-candidate success.  The third
equation shows the contrast: an ok status with zero articles is the case
that yields 200 with an empty list. -/
theorem C4_provider_failure_yields_500 :
    newsFetchGet .httpFailure { rows := [], nextId := 0 } =
      ({ status := 500, success := false, data := [] },
       { rows := [], nextId := 0 }) ∧
    newsFetchGet .statusNotOk { rows := [], nextId := 0 } =
      ({ status := 500, success := false, data := [] },
       { rows := [], nextId := 0 }) ∧
    newsFetchGet (.ok []) { rows := [], nextId := 0 } =
      ({ status := 200, success := true, data := [] },
       { rows := [], nextId := 0 }) :=
  ⟨rfl, rfl, rfl⟩

/-- The row that the insert branch of `store_article_in_supabase` writes,
given the required field values it extracted. -/
def insertedRow (a : RawArticle) (s : Store) (t sn p u : String) :
    ArticleRow :=
  { id := s.nextId, title := t, summary := a.summary.getD "",
    content := a.content.getD "", source := sn, published_at := p,
    url := u, image := a.urlToImage.getD "" }

/-- C10: on the insert path of `store_article_in_supabase` the stored
`source` column is `article["source"]["name"]` for a dict-valued source and
the raw source value otherwise, absent `summary`/`content`/`urlToImage`
keys are stored as `""`, and absent `url`/`title`/`publishedAt` keys raise
`KeyError` so nothing is inserted. -/
theorem C10_insert_field_mapping (a : RawArticle) (s : Store) :
    (∀ nm, a.source = some (.dict (some nm)) → sourceField a.source = .ok nm) ∧
    (∀ v, a.source = some (.str v) → sourceField a.source = .ok v) ∧
    (a.url = none →
      store_article_in_supabase a s = .error (.keyError "url")) ∧
    (∀ u, a.url = some u → s.rows.find? (fun row => row.url == u) = none →
      ((a.title = none →
          store_article_in_supabase a s = .error (.keyError "title")) ∧
       (∀ t, a.title = some t → a.source = none →
          store_article_in_supabase a s = .error (.keyError "source")) ∧
       (∀ t sn, a.title = some t → sourceField a.source = .ok sn →
          a.publishedAt = none →
          store_article_in_supabase a s = .error (.keyError "publishedAt")) ∧
       (∀ t sn p, a.title = some t → sourceField a.source = .ok sn →
          a.publishedAt = some p →
          store_article_in_supabase a s = .ok (s.nextId,
            { rows := s.rows ++ [insertedRow a s t sn p u],
              nextId := s.nextId + 1 })))) := by
  refine ⟨?_, ?_, ?_, ?_⟩
  · intro nm h
    simp [sourceField, h]
  · intro v h
    simp [sourceField, h]
  · intro h
    simp [store_article_in_supabase, h]
  · intro u hu hfind
    refine ⟨?_, ?_, ?_, ?_⟩
    · intro h
      simp [store_article_in_supabase, hu, hfind, h]
    · intro t ht hsrc
      simp [store_article_in_supabase, hu, hfind, ht, hsrc, sourceField]
    · intro t sn ht hsn hp
      simp [store_article_in_supabase, hu, hfind, ht, hsn, hp]
    · intro t sn p ht hsn hp
      simp [store_article_in_supabase, hu, hfind, ht, hsn, hp, insertedRow]

def c10Article : RawArticle :=
  { title := some "t", source := some (.dict (some "Reuters")),
    publishedAt := some "2024-01-01", url := some "https://e.x/b" }

/-- Witness for C10: inserting a fresh article whose source is a dict with
name "Reuters" stores that name and defaults the absent summary, content
and image to the empty string. -/
theorem C10_insert_field_mapping_witness :
    store_article_in_supabase c10Article { rows := [], nextId := 0 } =
      .ok (0, { rows := [insertedRow c10Article { rows := [], nextId := 0 }
          "t" "Reuters" "2024-01-01" "https://e.x/b"], nextId := 1 }) :=
  (((C10_insert_field_mapping c10Article { rows := [], nextId := 0 }).2.2.2
      "https://e.x/b" rfl rfl).2.2.2) "t" "Reuters" "2024-01-01" rfl rfl rfl

/-- The store has settled on id `i` for url `u`: the lookup by `u` finds a
row whose id is `i`, and exactly one row holds `u`. -/
def Settled (s : Store) (u : String) (i : Nat) : Prop :=
  (∃ r, s.rows.find? (fun row => row.url == u) = some r ∧ r.id = i) ∧
  urlCount s u = 1

theorem upsert_settled (a : RawArticle) (u : String) (s : Store) (i : Nat)
    (hs : Settled s u i) (hu : a.url = some u) :
    store_article_in_supabase a s = .ok (i, s) := by
  obtain ⟨⟨r, hr, hid⟩, _⟩ := hs
  rw [upsert_found a u s r hu hr, hid]

theorem upsert_establishes (a : RawArticle) (u : String) (s : Store)
    (i : Nat) (s' : Store) (hinv : urlCount s u ≤ 1) (hu : a.url = some u)
    (hrun : store_article_in_supabase a s = .ok (i, s')) :
    Settled s' u i := by
  cases hfind : s.rows.find? (fun r => r.url == u) with
  | some r =>
    have heq := upsert_found a u s r hu hfind
    rw [heq] at hrun
    simp only [Except.ok.injEq, Prod.mk.injEq] at hrun
    obtain ⟨hi, hs'⟩ := hrun
    subst hi
    subst hs'
    refine ⟨⟨r, hfind, rfl⟩, ?_⟩
    have hpos : 0 < urlCount s u := by
      apply List.countP_pos_iff.mpr
      have hmem : r ∈ s.rows := List.mem_of_find?_eq_some hfind
      have hp := List.find?_some hfind
      exact ⟨r, hmem, hp⟩
    omega
  | none =>
    cases ht : a.title with
    | none =>
      have heq : store_article_in_supabase a s = .error (.keyError "title") := by
        simp [store_article_in_supabase, hu, hfind, ht]
      rw [heq] at hrun
      simp at hrun
    | some t =>
      cases hsf : sourceField a.source with
      | error e =>
        have heq : store_article_in_supabase a s = .error e := by
          simp [store_article_in_supabase, hu, hfind, ht, hsf]
        rw [heq] at hrun
        simp at hrun
      | ok sn =>
        cases hp : a.publishedAt with
        | none =>
          have heq : store_article_in_supabase a s =
              .error (.keyError "publishedAt") := by
            simp [store_article_in_supabase, hu, hfind, ht, hsf, hp]
          rw [heq] at hrun
          simp at hrun
        | some p =>
          have heq : store_article_in_supabase a s = .ok (s.nextId,
              { rows := s.rows ++ [insertedRow a s t sn p u],
                nextId := s.nextId + 1 }) := by
            simp [store_article_in_supabase, hu, hfind, ht, hsf, hp,
              insertedRow]
          rw [heq] at hrun
          simp only [Except.ok.injEq, Prod.mk.injEq] at hrun
          obtain ⟨hi, hs'⟩ := hrun
          subst hi
          subst hs'
          constructor
          · refine ⟨insertedRow a s t sn p u, ?_, rfl⟩
            rw [List.find?_append, hfind]
            simp [insertedRow, List.find?]
          · have hzero : s.rows.countP (fun r => r.url == u) = 0 := by
              apply List.countP_eq_zero.mpr
              intro r hr
              exact List.find?_eq_none.mp hfind r hr
            simp [urlCount, List.countP_append, hzero, insertedRow,
              List.countP_cons]

/-- Once the store has settled on id `i` for url `u`, a run of upserts for
articles all carrying url `u` returns `i` every time and leaves the store
untouched. -/
theorem upsertList_settled (u : String) (i : Nat) (arts : List RawArticle) :
    ∀ s : Store, Settled s u i → (∀ a ∈ arts, a.url = some u) →
      upsertList arts s = .ok (List.replicate arts.length i, s) := by
  induction arts with
  | nil => intro s _ _; rfl
  | cons a rest ih =>
    intro s hs hall
    have h1 : store_article_in_supabase a s = .ok (i, s) :=
      upsert_settled a u s i hs (hall a (List.mem_cons_self a rest))
    have h2 := ih s hs (fun b hb => hall b (List.mem_cons_of_mem a hb))
    simp [upsertList, h1, h2, List.replicate_succ]

/-- C1: when a candidate's url already exists, `store_article_in_supabase`
returns the existing row's id and inserts nothing; consequently, starting
from a store satisfying the url-uniqueness invariant, every call of a run
of upserts carrying one common url returns the same id and the final store
holds exactly one row for that url. -/
theorem C1_upsert_dedup_idempotent (s : Store) (u : String)
    (hinv : ∀ v, urlCount s v ≤ 1) :
    (∀ (a : RawArticle) (r : ArticleRow), a.url = some u →
        s.rows.find? (fun row => row.url == u) = some r →
        store_article_in_supabase a s = .ok (r.id, s)) ∧
    (∀ (arts : List RawArticle) (ids : List Nat) (s' : Store),
        (∀ a ∈ arts, a.url = some u) →
        upsertList arts s = .ok (ids, s') →
        (∀ i ∈ ids, ∀ j ∈ ids, i = j) ∧
        (arts ≠ [] → urlCount s' u = 1)) := by
  constructor
  · intro a r hu hr
    exact upsert_found a u s r hu hr
  · intro arts ids s' hall hrun
    cases arts with
    | nil =>
      simp only [upsertList, Except.ok.injEq, Prod.mk.injEq] at hrun
      obtain ⟨hids, hs'⟩ := hrun
      subst hids
      constructor
      · intro i hi
        simp at hi
      · intro h
        exact absurd rfl h
    | cons a rest =>
      cases h1 : store_article_in_supabase a s with
      | error e => simp [upsertList, h1] at hrun
      | ok pr =>
        obtain ⟨i, s1⟩ := pr
        have hset : Settled s1 u i :=
          upsert_establishes a u s i s1 (hinv u)
            (hall a (List.mem_cons_self a rest)) h1
        have h2 := upsertList_settled u i rest s1 hset
          (fun b hb => hall b (List.mem_cons_of_mem a hb))
        have heq : upsertList (a :: rest) s =
            .ok (i :: List.replicate rest.length i, s1) := by
          simp [upsertList, h1, h2]
        rw [heq] at hrun
        simp only [Except.ok.injEq, Prod.mk.injEq] at hrun
        obtain ⟨hids, hs'⟩ := hrun
        subst hids
        subst hs'
        constructor
        · intro x hx y hy
          have hx' : x = i := by
            rcases List.mem_cons.mp hx with h | h
            · exact h
            · exact List.eq_of_mem_replicate h
          have hy' : y = i := by
            rcases List.mem_cons.mp hy with h | h
            · exact h
            · exact List.eq_of_mem_replicate h
          rw [hx', hy']
        · intro _
          exact hset.2

def c1Article : RawArticle :=
  { title := some "t", source := some (.str "s"),
    publishedAt := some "2024-01-01", url := some "https://e.x/c" }

def c1Row : ArticleRow :=
  { id := 0, title := "t", summary := "", content := "", source := "s",
    published_at := "2024-01-01", url := "https://e.x/c", image := "" }

/-- Witness for C1: upserting the same article twice into an empty store
returns id 0 both times and leaves exactly one row for its url. -/
theorem C1_upsert_dedup_idempotent_witness :
    (∀ i ∈ ([0, 0] : List Nat), ∀ j ∈ ([0, 0] : List Nat), i = j) ∧
    urlCount { rows := [c1Row], nextId := 1 } "https://e.x/c" = 1 := by
  have h := (C1_upsert_dedup_idempotent { rows := [], nextId := 0 }
      "https://e.x/c" (fun v => by simp [urlCount])).2
      [c1Article, c1Article] [0, 0] { rows := [c1Row], nextId := 1 }
      (by decide) (by rfl)
  exact ⟨h.1, h.2 (by simp)⟩

theorem occursIn_iff (needle : List Char) (hay : List Char) :
    occursIn needle hay = true ↔ needle <:+: hay := by
  induction hay with
  | nil =>
    simp [occursIn, List.isEmpty_iff, List.infix_nil]
  | cons c rest ih =>
    rw [occursIn, List.infix_cons_iff]
    simp [List.isPrefixOf_iff_prefix, ih]

/-- C2: the modelled Relatedness Matcher answers true exactly when the
story's keyword, whitespace-trimmed and lowercased, is non-empty and occurs
as a contiguous substring of the lowercased title or of the lowercased
content/summary (an absent field standing for the empty string).  In
particular an empty or whitespace-only keyword — whose trim is empty —
matches no article, and the matcher is a total function, so a missing
content field cannot make it fail. -/
theorem C2_isRelated_characterisation (story : TrackedStory)
    (article : RawArticle) :
    isRelated story article = true ↔
      (normKeyword story.keyword ≠ [] ∧
        (normKeyword story.keyword <:+:
            lowerData (article.title.getD "") ∨
         normKeyword story.keyword <:+:
            lowerData (article.content.getD "") ∨
         normKeyword story.keyword <:+:
            lowerData (article.summary.getD ""))) := by
  simp [isRelated, occursIn_iff, Bool.and_eq_true, Bool.or_eq_true,
    Bool.not_eq_true', List.isEmpty_iff, and_assoc, or_assoc]

theorem linkStoryArticle_links (storyId articleId : Nat)
    (ts : TrackingState) :
    (linkStoryArticle storyId articleId ts).links =
      if (storyId, articleId) ∈ ts.links then ts.links
      else ts.links ++ [(storyId, articleId)] := by
  unfold linkStoryArticle
  split <;> simp_all

theorem linkStoryArticle_noop (storyId articleId : Nat)
    (ts : TrackingState) (h : (storyId, articleId) ∈ ts.links) :
    linkStoryArticle storyId articleId ts = ts := by
  unfold linkStoryArticle
  simp [h]

/-- C6: starting from a link table where every (story_id, article_id) pair
appears at most once, `linkStoryArticle` preserves that invariant, linking
an already-linked pair is a silent no-op (the whole state is unchanged, and
a second identical link is the identity), and after linking the pair
appears exactly once.  The operation is a total function, so no error is
raised. -/
theorem C6_link_idempotent (ts : TrackingState) (sid aid : Nat)
    (hinv : ∀ p, ts.links.count p ≤ 1) :
    (∀ p, (linkStoryArticle sid aid ts).links.count p ≤ 1) ∧
    linkStoryArticle sid aid (linkStoryArticle sid aid ts) =
      linkStoryArticle sid aid ts ∧
    (linkStoryArticle sid aid ts).links.count (sid, aid) = 1 := by
  by_cases hmem : (sid, aid) ∈ ts.links
  · have hsame : linkStoryArticle sid aid ts = ts :=
      linkStoryArticle_noop sid aid ts hmem
    refine ⟨?_, ?_, ?_⟩
    · rw [hsame]; exact hinv
    · rw [hsame, hsame]
    · rw [hsame]
      have hpos : 0 < ts.links.count (sid, aid) :=
        List.count_pos_iff.mpr hmem
      have := hinv (sid, aid)
      omega
  · have hlinks : (linkStoryArticle sid aid ts).links =
        ts.links ++ [(sid, aid)] := by
      rw [linkStoryArticle_links]
      simp [hmem]
    have hzero : ts.links.count (sid, aid) = 0 :=
      List.count_eq_zero.mpr hmem
    refine ⟨?_, ?_, ?_⟩
    · intro p
      rw [hlinks, List.count_append]
      by_cases hp : p = (sid, aid)
      · subst hp
        simp [hzero, List.count_singleton]
      · have h1 : ((sid, aid) :: ([] : List (Nat × Nat))).count p = 0 := by
          apply List.count_eq_zero.mpr
          simp [hp]
        have h2 := hinv p
        omega
    · have hmem2 : (sid, aid) ∈ (linkStoryArticle sid aid ts).links := by
        rw [hlinks]
        simp
      exact linkStoryArticle_noop sid aid (linkStoryArticle sid aid ts) hmem2
    · simp [hlinks, List.count_append, hzero]

def c6State : TrackingState := { stories := [], links := [], nextStoryId := 0 }

/-- Witness for C6: linking (1, 2) into an empty link table yields exactly
one row for the pair. -/
theorem C6_link_idempotent_witness :
    (linkStoryArticle 1 2 c6State).links.count (1, 2) = 1 :=
  (C6_link_idempotent c6State 1 2 (fun p => by simp [c6State])).2.2

theorem markDeleted_id (sid : Nat) (st : TrackedStory) :
    (markDeleted sid st).id = st.id := by
  unfold markDeleted
  split <;> rfl

theorem find?_markDeleted (sid : Nat) (l : List TrackedStory) :
    (l.map (markDeleted sid)).find? (fun st => st.id == sid) =
      (l.find? (fun st => st.id == sid)).map (markDeleted sid) := by
  have hp : ((fun st : TrackedStory => st.id == sid) ∘ markDeleted sid) =
      (fun st : TrackedStory => st.id == sid) := by
    funext st
    simp [Function.comp, markDeleted_id]
  rw [List.find?_map, hp]

theorem linkStoryArticle_stories (a b : Nat) (ts : TrackingState) :
    (linkStoryArticle a b ts).stories = ts.stories := by
  unfold linkStoryArticle
  split <;> rfl

/-- C7: a story id that is absent from the table, or whose story is
DELETED, makes `get_story_details` answer nothing and the detail endpoint
answer 404; and after a successful `delete_tracked_story`, the detail
lookup of that story answers not-found. -/
theorem C7_deleted_invisible (ts : TrackingState) (sid : Nat) :
    (ts.stories.find? (fun st => st.id == sid) = none →
       get_story_details ts sid = none ∧
       storyTrackingDetailGet ts sid = (404, none)) ∧
    (∀ st, ts.stories.find? (fun st2 => st2.id == sid) = some st →
       st.status = .DELETED →
       get_story_details ts sid = none ∧
       storyTrackingDetailGet ts sid = (404, none)) ∧
    (∀ u, (delete_tracked_story u sid ts).1 = true →
       get_story_details (delete_tracked_story u sid ts).2 sid = none ∧
       storyTrackingDetailGet (delete_tracked_story u sid ts).2 sid =
         (404, none)) := by
  refine ⟨?_, ?_, ?_⟩
  · intro hf
    have hg : get_story_details ts sid = none := by
      simp [get_story_details, hf]
    exact ⟨hg, by simp [storyTrackingDetailGet, hg]⟩
  · intro st hf hdel
    have hg : get_story_details ts sid = none := by
      simp [get_story_details, hf, hdel]
    exact ⟨hg, by simp [storyTrackingDetailGet, hg]⟩
  · intro u h
    cases hf : ts.stories.find? (fun s2 => s2.id == sid) with
    | none =>
      have heq : delete_tracked_story u sid ts = (false, ts) := by
        unfold delete_tracked_story
        simp [hf]
      rw [heq] at h
      simp at h
    | some st =>
      by_cases hc : (st.status == .ACTIVE && st.owner_user_id == u) = true
      · have heq : delete_tracked_story u sid ts =
            (true, { ts with stories := ts.stories.map (markDeleted sid) }) := by
          unfold delete_tracked_story
          simp [hf, hc]
        rw [heq]
        have hid := List.find?_some hf
        have hfind2 : (ts.stories.map (markDeleted sid)).find?
            (fun s2 => s2.id == sid) = some (markDeleted sid st) := by
          rw [find?_markDeleted, hf]
          rfl
        have hstD : (markDeleted sid st).status = .DELETED := by
          unfold markDeleted
          simp [hid]
        have hg : get_story_details
            { ts with stories := ts.stories.map (markDeleted sid) } sid =
            none := by
          simp [get_story_details, hfind2, hstD]
        exact ⟨hg, by simp [storyTrackingDetailGet, hg]⟩
      · have heq : delete_tracked_story u sid ts = (false, ts) := by
          unfold delete_tracked_story
          simp [hf, hc]
        rw [heq] at h
        simp at h

def c7Story : TrackedStory :=
  { id := 1, owner_user_id := "alice", keyword := "ai", status := .ACTIVE }

def c7State : TrackingState :=
  { stories := [c7Story], links := [], nextStoryId := 2 }

/-- Witness for C7: after the owner deletes story 1, detail lookup of story
1 answers not-found and the endpoint answers 404. -/
theorem C7_deleted_invisible_witness :
    get_story_details (delete_tracked_story "alice" 1 c7State).2 1 = none ∧
    storyTrackingDetailGet (delete_tracked_story "alice" 1 c7State).2 1 =
      (404, none) :=
  (C7_deleted_invisible c7State 1).2.2 "alice" (by rfl)

/-- C8: when the story does not exist, and equally when it exists but is
owned by a different user, `delete_tracked_story` answers false with the
state unchanged — so another user's ACTIVE story stays ACTIVE — and the
endpoint produces the one uniform 404 not-found response in both cases, so
a caller cannot tell another user's story from a non-existent one. -/
theorem C8_ownership_isolation (ts : TrackingState) (u : String) (sid : Nat)
    (h : ts.stories.find? (fun st => st.id == sid) = none ∨
         ∃ st, ts.stories.find? (fun st2 => st2.id == sid) = some st ∧
           st.owner_user_id ≠ u) :
    delete_tracked_story u sid ts = (false, ts) ∧
    storyTrackingDetailDelete u sid ts =
      ((404, "Failed to delete tracked story or story not found"), ts) := by
  have hdel : delete_tracked_story u sid ts = (false, ts) := by
    rcases h with hf | ⟨st, hf, hown⟩
    · unfold delete_tracked_story
      simp [hf]
    · have hbeq : (st.owner_user_id == u) = false :=
        beq_eq_false_iff_ne.mpr hown
      unfold delete_tracked_story
      simp [hf, hbeq]
  exact ⟨hdel, by simp [storyTrackingDetailDelete, hdel]⟩

/-- Witness for C8: "bob" deleting "alice"'s ACTIVE story 1 gets false and
the same 404 response a non-existent story would get, with the story
untouched. -/
theorem C8_ownership_isolation_witness :
    delete_tracked_story "bob" 1 c7State = (false, c7State) ∧
    storyTrackingDetailDelete "bob" 1 c7State =
      ((404, "Failed to delete tracked story or story not found"),
       c7State) :=
  C8_ownership_isolation c7State "bob" 1
    (Or.inr ⟨c7Story, by rfl, by decide⟩)

/-- C9: the creation endpoint rejects an absent or empty keyword with a 400
and an unchanged state — no story is created — while a non-empty keyword
yields a 201 and a story created in ACTIVE state for the caller. -/
theorem C9_create_requires_keyword (u : String) (sa : Option Nat)
    (ts : TrackingState) :
    storyTrackingPost u none sa ts = (400, ts) ∧
    storyTrackingPost u (some "") sa ts = (400, ts) ∧
    (∀ k, k ≠ "" →
      storyTrackingPost u (some k) sa ts =
        (201, (create_tracked_story u k sa ts).2) ∧
      (create_tracked_story u k sa ts).1 ∈
        (create_tracked_story u k sa ts).2.stories ∧
      (create_tracked_story u k sa ts).1.owner_user_id = u ∧
      (create_tracked_story u k sa ts).1.keyword = k ∧
      (create_tracked_story u k sa ts).1.status = .ACTIVE) := by
  refine ⟨rfl, rfl, ?_⟩
  intro k hk
  have hbeq : (k == "") = false := beq_eq_false_iff_ne.mpr hk
  have hfst : (create_tracked_story u k sa ts).1 =
      { id := ts.nextStoryId, owner_user_id := u, keyword := k,
        status := .ACTIVE } := by
    unfold create_tracked_story
    cases sa <;> rfl
  have hstories : (create_tracked_story u k sa ts).2.stories =
      ts.stories ++ [(create_tracked_story u k sa ts).1] := by
    rw [hfst]
    unfold create_tracked_story
    cases sa <;> simp [linkStoryArticle_stories]
  refine ⟨?_, ?_, ?_, ?_, ?_⟩
  · simp [storyTrackingPost, hbeq]
  · rw [hstories]
    simp
  · rw [hfst]
  · rw [hfst]
  · rw [hfst]

/-- Witness for C9: creating a story with keyword "ai" on the empty state
answers 201 and the created story is ACTIVE, owned by the caller. -/
theorem C9_create_requires_keyword_witness :
    storyTrackingPost "u1" (some "ai") none c6State =
      (201, (create_tracked_story "u1" "ai" none c6State).2) ∧
    (create_tracked_story "u1" "ai" none c6State).1 ∈
      (create_tracked_story "u1" "ai" none c6State).2.stories ∧
    (create_tracked_story "u1" "ai" none c6State).1.owner_user_id = "u1" ∧
    (create_tracked_story "u1" "ai" none c6State).1.keyword = "ai" ∧
    (create_tracked_story "u1" "ai" none c6State).1.status = .ACTIVE :=
  (C9_create_requires_keyword "u1" none c6State).2.2 "ai" (by decide)

end NewsAggregator
